import Mathlib

/-!
Shallow embedding of the product provenance frontend
(src/frontend/src: app/products/verify/page.jsx,
components/products/ProductRegistrationForm.jsx, services/api.js),
with theorems settling the behavioural claims about verification,
registration, and the checkpoint timeline.
-/

namespace Counterfeit

/-- JavaScript `!s.trim()`: true iff the string is empty or consists of
whitespace only, so that `trim()` yields the empty (falsy) string. -/
def trimmedEmpty (s : String) : Bool := s.data.all (fun c => c.isWhitespace)

/-- JavaScript truthiness of a nullable string: present and non-empty. -/
def jsTruthyStr : Option String → Bool
  | none => false
  | some s => !s.data.isEmpty

/-- JavaScript truthiness of a nullable number: present and nonzero. -/
def jsTruthyNum : Option Int → Bool
  | none => false
  | some n => n != 0

/-- Product view fields used by the pages under verification. `blockchainHash`
is the anchor reference column; `createdAt` is the creation time in epoch
milliseconds (`none` models an absent/falsy value). -/
structure Product where
  id : String
  productId : String
  name : String
  category : String
  blockchainHash : Option String
  createdAt : Option Int
  deriving Repr, DecidableEq

/-- Body of a resolved verify response as documented in services/api.js
(`{product: Object, isAuthentic: boolean}`); either field may be absent in a
malformed body, the object itself is truthy regardless. -/
structure VerifyBody where
  product : Option Product
  isAuthentic : Option Bool
  deriving Repr, DecidableEq

/-- A rejected HTTP call as it reaches the verify page's catch block:
`err.response?.data?.message` is the only part the handler reads (`none`
models a missing response or message, e.g. a network error). -/
structure ApiFailure where
  responseMessage : Option String
  deriving Repr, DecidableEq

/-- Result of awaiting `productsAPI.verify`: the promise either rejects
(not-found status, server error, network failure) or resolves with
`response.data`, which may itself be falsy (`resolved none`). -/
inductive LookupOutcome where
  | rejected (e : ApiFailure)
  | resolved (body : Option VerifyBody)
  deriving Repr, DecidableEq

/-- The verification result state the verify page displays. -/
structure VerificationResult where
  verified : Bool
  product : Option VerifyBody
  deriving Repr, DecidableEq

/-- The two pieces of page state written by `handleVerify`. -/
structure HandlerState where
  verificationResult : Option VerificationResult
  error : Option String
  deriving Repr, DecidableEq

/-- One run of `handleVerify`: whether the network lookup was attempted and
the page state afterwards. -/
structure HandlerRun where
  attemptedLookup : Bool
  state : HandlerState
  deriving Repr, DecidableEq

/-- Shallow embedding of `handleVerify` (app/products/verify/page.jsx).
`lookup` is the outcome the awaited `productsAPI.verify(productId)` call
produces. A blank input returns before any call, leaving state untouched.
A truthy resolved body sets `verified := true` with the body as the product;
a falsy body or a rejection sets `verified := false` with no product, a
rejection additionally setting the error message
(`err.response?.data?.message || 'Product not found'`). -/
def handleVerify (productId : String) (lookup : LookupOutcome)
    (s : HandlerState) : HandlerRun :=
  if trimmedEmpty productId then ⟨false, s⟩
  else
    match lookup with
    | .resolved (some body) =>
        ⟨true, { verificationResult := some ⟨true, some body⟩, error := none }⟩
    | .resolved none =>
        ⟨true, { verificationResult := some ⟨false, none⟩, error := none }⟩
    | .rejected e =>
        ⟨true, { verificationResult := some ⟨false, none⟩,
                 error := some (e.responseMessage.getD "Product not found") }⟩

/-- Failure modes of the lookup: a rejected promise of any cause, or a
resolved but falsy body. -/
def lookupFailed : LookupOutcome → Bool
  | .rejected _ => true
  | .resolved body => body.isNone

/-- C1: for every verification attempt on a non-blank input, every failure of
the lookup — rejection of any cause (not-found, network error, server error)
or a falsy resolved body — produces one and the same caller-visible outcome,
`verified = false` with no product: the handler never distinguishes the
failure causes in the displayed verification result. -/
theorem verify_failure_collapses_to_not_verified
    (input : String) (h : trimmedEmpty input = false)
    (lookup : LookupOutcome) (hfail : lookupFailed lookup = true)
    (s : HandlerState) :
    (handleVerify input lookup s).state.verificationResult = some ⟨false, none⟩ := by
  cases lookup with
  | rejected e => simp [handleVerify, h]
  | resolved body =>
      cases body with
      | none => simp [handleVerify, h]
      | some b => simp [lookupFailed] at hfail

/-- Concrete run of `verify_failure_collapses_to_not_verified`: a network
rejection with no response message on the input "PFZ-CV19-001". -/
theorem verify_failure_collapses_witness :
    (handleVerify "PFZ-CV19-001" (.rejected ⟨none⟩) ⟨none, none⟩).state.verificationResult
      = some ⟨false, none⟩ :=
  verify_failure_collapses_to_not_verified "PFZ-CV19-001" (by decide)
    (.rejected ⟨none⟩) (by decide) ⟨none, none⟩

/-- C2: the Verified decision reads only the truthiness of the resolved body:
a truthy body whose documented `isAuthentic` field is `false` or absent is
still reported as verified, with the whole body stored as the product — the
`isAuthentic` flag is never consulted. -/
theorem verify_ignores_isAuthentic
    (input : String) (h : trimmedEmpty input = false)
    (b : VerifyBody) (hb : b.isAuthentic = some false ∨ b.isAuthentic = none)
    (s : HandlerState) :
    (handleVerify input (.resolved (some b)) s).state.verificationResult
      = some ⟨true, some b⟩ := by
  simp [handleVerify, h]

/-- Concrete run of `verify_ignores_isAuthentic`: a body carrying
`isAuthentic = false` is reported as verified. -/
theorem verify_ignores_isAuthentic_witness :
    (handleVerify "NEXUS-1" (.resolved (some ⟨none, some false⟩)) ⟨none, none⟩).state.verificationResult
      = some ⟨true, some ⟨none, some false⟩⟩ :=
  verify_ignores_isAuthentic "NEXUS-1" (by decide) ⟨none, some false⟩
    (Or.inl rfl) ⟨none, none⟩

/-- C7 counterexample: on the whitespace-only input "   " the handler makes
no network call, but it also produces no outcome whatsoever: the early return
leaves the verification result and the error message untouched (both stay
`none` here), so no local `InvalidInputError`-like outcome distinct from
NotVerified is ever surfaced. -/
theorem whitespace_input_no_error_outcome :
    (handleVerify "   " (.rejected ⟨none⟩) ⟨none, none⟩).attemptedLookup = false ∧
    (handleVerify "   " (.rejected ⟨none⟩) ⟨none, none⟩).state.error = none ∧
    (handleVerify "   " (.rejected ⟨none⟩) ⟨none, none⟩).state.verificationResult = none := by
  decide

/-- C7 amended: every blank (empty or whitespace-only) input is rejected
before any network call, but silently: the handler attempts no lookup and
returns the page state exactly as it was, producing no distinct error
outcome. -/
theorem whitespace_input_silent_early_return
    (input : String) (h : trimmedEmpty input = true)
    (lookup : LookupOutcome) (s : HandlerState) :
    handleVerify input lookup s = ⟨false, s⟩ := by
  simp [handleVerify, h]

/-- Concrete run of `whitespace_input_silent_early_return` on the empty
input. -/
theorem whitespace_input_silent_witness :
    handleVerify "" (.resolved none) ⟨none, none⟩ = ⟨false, ⟨none, none⟩⟩ :=
  whitespace_input_silent_early_return "" (by decide) (.resolved none) ⟨none, none⟩

/-- Parsed form data as it reaches the zod schema, after `z.coerce.number()`
turned the temperature fields into numbers (`none` models an absent value
that `.optional()` lets through). -/
structure RegistrationInput where
  name : String
  productId : String
  category : String
  description : String
  manufacturingDate : String
  expiryDate : Option String
  originLocation : String
  minTemperature : Option Int
  maxTemperature : Option Int
  deriving Repr, DecidableEq

/-- A zod issue: the tagged field path and its message. -/
structure FieldError where
  path : String
  message : String
  deriving Repr, DecidableEq

/-- Object-level checks of `productSchema` (ProductRegistrationForm.jsx):
each field's `min` constraint with its message, in declaration order. -/
def productSchemaBaseErrors (d : RegistrationInput) : List FieldError :=
  (if d.name.length < 3 then
    [⟨"name", "Product name must be at least 3 characters"⟩] else [])
  ++ (if d.productId.length < 3 then
    [⟨"productId", "Product ID must be at least 3 characters"⟩] else [])
  ++ (if d.category.length < 1 then
    [⟨"category", "Please select a category"⟩] else [])
  ++ (if d.description.length < 10 then
    [⟨"description", "Description must be at least 10 characters"⟩] else [])
  ++ (if d.manufacturingDate.length < 1 then
    [⟨"manufacturingDate", "Manufacturing date is required"⟩] else [])
  ++ (if d.originLocation.length < 3 then
    [⟨"originLocation", "Origin location is required"⟩] else [])

/-- The schema's `.refine`: it requires min < max only when the guard
`data.minTemperature && data.maxTemperature` is truthy, i.e. both values are
present and nonzero; a zero bound short-circuits the guard to false and the
refinement passes vacuously. -/
def temperatureRefineFails (d : RegistrationInput) : Bool :=
  jsTruthyNum d.minTemperature && jsTruthyNum d.maxTemperature &&
    !(decide (d.minTemperature.getD 0 < d.maxTemperature.getD 0))

/-- Full `productSchema`: zod runs the refinement only on objects that pass
the base field checks; the refinement's issue is tagged on maxTemperature. -/
def productSchemaErrors (d : RegistrationInput) : List FieldError :=
  let base := productSchemaBaseErrors d
  if base.isEmpty then
    if temperatureRefineFails d then
      [⟨"maxTemperature", "Min temperature must be less than max temperature"⟩]
    else []
  else base

/-- Whether the zod resolver lets the submission through. -/
def schemaPasses (d : RegistrationInput) : Bool := (productSchemaErrors d).isEmpty

/-- JavaScript `v || null` on an optional string: an empty string becomes
null. -/
def orNullStr : Option String → Option String
  | some s => if s.data.isEmpty then none else some s
  | none => none

/-- JavaScript `v || null` on an optional number: zero becomes null. -/
def orNullNum : Option Int → Option Int
  | some n => if n = 0 then none else some n
  | none => none

/-- The request body `onSubmit` assembles for `productsAPI.create`. -/
structure ProductPayload where
  name : String
  productId : String
  category : String
  description : String
  manufacturingDate : String
  expiryDate : Option String
  originLocation : String
  minTemperature : Option Int
  maxTemperature : Option Int
  deriving Repr, DecidableEq

/-- Step 1 payload construction in `onSubmit`, including the `|| null`
coalescing on the optional fields. -/
def buildProductData (d : RegistrationInput) : ProductPayload :=
  { name := d.name, productId := d.productId, category := d.category,
    description := d.description, manufacturingDate := d.manufacturingDate,
    expiryDate := orNullStr d.expiryDate, originLocation := d.originLocation,
    minTemperature := orNullNum d.minTemperature,
    maxTemperature := orNullNum d.maxTemperature }

/-- Outbound collaborator calls a registration run can make. -/
inductive NetCall where
  | createProduct (payload : ProductPayload)
  | anchor (productId : String) (name : String) (manufacturer : String)
  | updateBlockchainHash (id : String) (txHash : String)
  | renderQR (productId : String) (id : String)
  deriving Repr, DecidableEq

/-- The methods defined on `productsAPI` in services/api.js. -/
def productsAPIMethods : List String :=
  ["create", "getAll", "getById", "verify", "getByBlockchainId"]

/-- The methods defined on `checkpointsAPI` in services/api.js. -/
def checkpointsAPIMethods : List String :=
  ["create", "getByProduct", "update"]

/-- Outcome of awaiting one collaborator call: the promise resolves with a
value or rejects with an error message. -/
inductive CallResult (α : Type) where
  | ok (value : α)
  | thrown (msg : String)
  deriving Repr, DecidableEq

/-- Collaborator behaviour for one registration run: the outcomes the awaited
external calls produce, and the Web3 context values (`account`, presence of
the `registerProduct` signer function). -/
structure RegistrationEnv where
  createResult : CallResult Product
  account : Option String
  hasRegisterProduct : Bool
  anchorResult : CallResult String
  qrResult : CallResult String
  deriving Repr, DecidableEq

/-- The handler's terminal registration states. -/
inductive RegState where
  | success
  | error
  deriving Repr, DecidableEq

/-- Component state and call trace after one `onSubmit` run. -/
structure RegistrationOutcome where
  registrationState : RegState
  registeredProduct : Option Product
  qrCodeUrl : Option String
  errorMsg : Option String
  calls : List NetCall
  deriving Repr, DecidableEq

/-- Shallow embedding of `onSubmit` (ProductRegistrationForm.jsx). Step 1:
`productsAPI.create`; its failure reaches the outer catch (error state).
Step 2 runs only under `account && registerProduct`; its inner try/catch
swallows every failure. On a successful anchor the code invokes
`productsAPI.updateBlockchainHash`, dispatched here against the methods
actually defined on `productsAPI`: a missing method throws a TypeError inside
the swallowed inner try, so no update request goes out. Step 3,
`generateQRCode`, sits in the outer try only: its failure reaches the error
state. On full success the create response becomes the registered product. -/
def onSubmit (d : RegistrationInput) (env : RegistrationEnv) : RegistrationOutcome :=
  let payload := buildProductData d
  match env.createResult with
  | .thrown e => ⟨.error, none, none, some e, [.createProduct payload]⟩
  | .ok apiResponse =>
    let blockchainCalls :=
      if jsTruthyStr env.account && env.hasRegisterProduct then
        match env.anchorResult with
        | .thrown _ =>
            [NetCall.anchor d.productId d.name (env.account.getD "")]
        | .ok txHash =>
            [NetCall.anchor d.productId d.name (env.account.getD "")]
            ++ (if productsAPIMethods.contains "updateBlockchainHash" then
                  [NetCall.updateBlockchainHash apiResponse.id txHash]
                else [])
      else []
    let calls := .createProduct payload :: blockchainCalls
                   ++ [NetCall.renderQR d.productId apiResponse.id]
    match env.qrResult with
    | .thrown e => ⟨.error, none, none, some e, calls⟩
    | .ok qr => ⟨.success, some apiResponse, some qr, none, calls⟩

/-- Result of submitting the form: `handleSubmit(onSubmit)` runs `onSubmit`
only when the zod resolver accepts the data; otherwise the field errors are
surfaced and nothing else happens. -/
inductive SubmitResult where
  | rejectedInput (errors : List FieldError)
  | ran (outcome : RegistrationOutcome)
  deriving Repr, DecidableEq

/-- The form submission path: resolver first, `onSubmit` only on success. -/
def submitForm (d : RegistrationInput) (env : RegistrationEnv) : SubmitResult :=
  if schemaPasses d then .ran (onSubmit d env) else .rejectedInput (productSchemaErrors d)

/-- The category enumeration offered by the form's Select and documented in
the spec's data model. -/
def categoryEnum : List String :=
  ["PHARMACEUTICALS", "ELECTRONICS", "LUXURY_GOODS", "FOOD_BEVERAGE",
   "AUTOMOTIVE", "OTHER"]

/-- A registration input with a category outside the enumeration and both
temperature bounds given with min ≥ max (the min bound being 0). -/
def outsideEnumInput : RegistrationInput :=
  { name := "Widget Pro", productId := "WID-001", category := "BOGUS",
    description := "a ten character description",
    manufacturingDate := "2024-01-01", expiryDate := none,
    originLocation := "Berlin", minTemperature := some 0,
    maxTemperature := some (-10) }

/-- Create response used by the concrete registration runs below. -/
def sampleProduct : Product :=
  ⟨"rec-1", "WID-001", "Widget Pro", "BOGUS", none, none⟩

/-- A run with no signing identity and all remaining collaborators
succeeding. -/
def sampleEnv : RegistrationEnv :=
  { createResult := .ok sampleProduct, account := none,
    hasRegisterProduct := false, anchorResult := .thrown "no wallet",
    qrResult := .ok "data:image/png;base64,QQ" }

/-- C3 counterexample: this input violates two of the claimed constraints —
its category lies outside the fixed enumeration, and both temperature bounds
are given with min ≥ max (min = 0) — yet the schema accepts it and the form
proceeds to the network step instead of failing with a validation error. -/
theorem productSchema_gaps_counterexample :
    schemaPasses outsideEnumInput = true ∧
    categoryEnum.contains outsideEnumInput.category = false ∧
    outsideEnumInput.minTemperature = some 0 ∧
    outsideEnumInput.maxTemperature = some (-10) ∧
    submitForm outsideEnumInput sampleEnv =
      .ran (onSubmit outsideEnumInput sampleEnv) := by
  decide

/-- The base field checks succeed exactly when every length constraint of the
schema holds. -/
lemma productSchemaBaseErrors_nil_iff (d : RegistrationInput) :
    productSchemaBaseErrors d = [] ↔
      (3 ≤ d.name.length ∧ 3 ≤ d.productId.length ∧ 1 ≤ d.category.length ∧
       10 ≤ d.description.length ∧ 1 ≤ d.manufacturingDate.length ∧
       3 ≤ d.originLocation.length) := by
  unfold productSchemaBaseErrors
  split_ifs <;> simp_all <;> omega

/-- The temperature refinement passes exactly when min < max holds whenever
both bounds are present and nonzero. -/
lemma temperatureRefineFails_false_iff (d : RegistrationInput) :
    temperatureRefineFails d = false ↔
      (jsTruthyNum d.minTemperature = true → jsTruthyNum d.maxTemperature = true →
        d.minTemperature.getD 0 < d.maxTemperature.getD 0) := by
  unfold temperatureRefineFails
  cases h1 : jsTruthyNum d.minTemperature <;>
    cases h2 : jsTruthyNum d.maxTemperature <;> simp

/-- The full schema issue list is empty exactly when the base checks and the
refinement both pass. -/
lemma productSchemaErrors_nil_iff (d : RegistrationInput) :
    productSchemaErrors d = [] ↔
      (productSchemaBaseErrors d = [] ∧ temperatureRefineFails d = false) := by
  unfold productSchemaErrors
  cases hb : (productSchemaBaseErrors d).isEmpty <;>
    cases hr : temperatureRefineFails d <;>
      simp_all [List.isEmpty_iff]

/-- C3 amended: the schema enforces name ≥ 3 chars, productKey ≥ 3 chars,
category non-empty (any non-empty string passes — the enumeration is not
checked), description ≥ 10 chars, manufacturingDate non-empty,
originLocation ≥ 3 chars, and min < max only when both temperature bounds
are present and nonzero (a bound equal to 0 disables the comparison); every
input violating one of these is rejected with field-tagged errors before any
network call. -/
theorem productSchema_characterization (d : RegistrationInput) (env : RegistrationEnv) :
    (schemaPasses d = true ↔
      (3 ≤ d.name.length ∧ 3 ≤ d.productId.length ∧ 1 ≤ d.category.length ∧
       10 ≤ d.description.length ∧ 1 ≤ d.manufacturingDate.length ∧
       3 ≤ d.originLocation.length ∧
       (jsTruthyNum d.minTemperature = true → jsTruthyNum d.maxTemperature = true →
         d.minTemperature.getD 0 < d.maxTemperature.getD 0))) ∧
    (schemaPasses d = false →
      submitForm d env = .rejectedInput (productSchemaErrors d) ∧
      productSchemaErrors d ≠ []) := by
  constructor
  · rw [schemaPasses, List.isEmpty_iff, productSchemaErrors_nil_iff,
      productSchemaBaseErrors_nil_iff, temperatureRefineFails_false_iff]
    tauto
  · intro hfail
    refine ⟨by simp [submitForm, hfail], ?_⟩
    intro hnil
    simp [schemaPasses, hnil] at hfail

/-- A registration input whose name is below the three-character minimum. -/
def shortNameInput : RegistrationInput :=
  { name := "ab", productId := "WID-001", category := "OTHER",
    description := "a ten character description",
    manufacturingDate := "2024-01-01", expiryDate := none,
    originLocation := "Berlin", minTemperature := none,
    maxTemperature := none }

/-- Concrete run of `productSchema_characterization`: an input with a
two-character name is rejected with its field-tagged error list and no call
is made. -/
theorem productSchema_characterization_witness :
    submitForm shortNameInput sampleEnv =
      .rejectedInput (productSchemaErrors shortNameInput) ∧
    productSchemaErrors shortNameInput ≠ [] :=
  (productSchema_characterization shortNameInput sampleEnv).2 (by decide)

/-- A schema-passing registration input used by the anchor/QR runs below. -/
def validInput : RegistrationInput :=
  { name := "Vaccine X", productId := "PFZ-CV19-001",
    category := "PHARMACEUTICALS", description := "ten-character description",
    manufacturingDate := "2024-01-01", expiryDate := none,
    originLocation := "New York", minTemperature := some (-70),
    maxTemperature := some (-60) }

/-- Create response for the anchor/QR runs: a fresh record with no anchor
reference yet. -/
def freshProduct : Product :=
  ⟨"rec-7", "PFZ-CV19-001", "Vaccine X", "PHARMACEUTICALS", none, none⟩

/-- A run with a connected signer whose anchoring call succeeds with the
transaction hash "0xTXHASH" and whose QR rendering succeeds. -/
def anchorEnv : RegistrationEnv :=
  { createResult := .ok freshProduct, account := some "0xM",
    hasRegisterProduct := true, anchorResult := .ok "0xTXHASH",
    qrResult := .ok "data:image/png;base64,QQ==" }

/-- C4 counterexample: the anchoring step succeeds and returns "0xTXHASH",
registration reports success — yet the product the handler returns is exactly
the create response, whose anchor-reference field is absent; it does not
equal the value the anchor client returned. -/
theorem anchor_success_reference_missing_counterexample :
    anchorEnv.anchorResult = .ok "0xTXHASH" ∧
    (onSubmit validInput anchorEnv).registrationState = .success ∧
    (onSubmit validInput anchorEnv).registeredProduct = some freshProduct ∧
    freshProduct.blockchainHash = none ∧
    ¬ freshProduct.blockchainHash = some "0xTXHASH" := by
  decide

/-- C4 amended: with a successful create and a successful QR render, the run
reports success for every anchoring outcome, and the returned product is
always exactly the create response: its anchor-reference field is whatever
create returned (absent for a fresh record), never the anchor client's value
— that value is only forwarded to a backend update attempt, not into the
returned view. -/
theorem anchor_best_effort (d : RegistrationInput) (env : RegistrationEnv)
    (p : Product) (hc : env.createResult = .ok p)
    (q : String) (hq : env.qrResult = .ok q) :
    (onSubmit d env).registrationState = .success ∧
    (onSubmit d env).registeredProduct = some p ∧
    ((onSubmit d env).registeredProduct.bind Product.blockchainHash) = p.blockchainHash := by
  unfold onSubmit
  rw [hc, hq]
  refine ⟨rfl, rfl, rfl⟩

/-- Concrete run of `anchor_best_effort` on a failing anchor call: the run
still succeeds and the returned product carries no anchor reference. -/
theorem anchor_best_effort_witness :
    (onSubmit validInput
        { anchorEnv with anchorResult := .thrown "user rejected" }).registrationState
      = .success ∧
    (onSubmit validInput
        { anchorEnv with anchorResult := .thrown "user rejected" }).registeredProduct
      = some freshProduct ∧
    ((onSubmit validInput
        { anchorEnv with anchorResult := .thrown "user rejected" }).registeredProduct.bind
      Product.blockchainHash) = freshProduct.blockchainHash :=
  anchor_best_effort validInput
    { anchorEnv with anchorResult := .thrown "user rejected" }
    freshProduct rfl "data:image/png;base64,QQ==" rfl

/-- C5: evaluated at a run whose anchoring step succeeds with hash
"0xTXHASH": `updateBlockchainHash` is not among the methods defined on
`productsAPI`, so the dispatch throws inside the swallowed inner try and the
call trace contains the create, anchor and QR calls but no update call at
all; registration still reports success. -/
theorem updateBlockchainHash_never_called :
    productsAPIMethods.contains "updateBlockchainHash" = false ∧
    (onSubmit validInput anchorEnv).calls =
      [.createProduct (buildProductData validInput),
       .anchor "PFZ-CV19-001" "Vaccine X" "0xM",
       .renderQR "PFZ-CV19-001" "rec-7"] ∧
    (onSubmit validInput anchorEnv).registrationState = .success := by
  decide

/-- A run whose QR rendering throws after a successful create. -/
def qrFailEnv : RegistrationEnv :=
  { createResult := .ok freshProduct, account := none,
    hasRegisterProduct := false, anchorResult := .thrown "no wallet",
    qrResult := .thrown "QR render failed" }

/-- C6 counterexample: the create succeeds and QR generation throws; the
handler lands in the error state with no registered product view and the
render error as its message — not in the success state without an image as
claimed — although the create call had already been made. -/
theorem qr_failure_reaches_error_state :
    (onSubmit validInput qrFailEnv).registrationState = .error ∧
    (onSubmit validInput qrFailEnv).registeredProduct = none ∧
    (onSubmit validInput qrFailEnv).errorMsg = some "QR render failed" ∧
    (onSubmit validInput qrFailEnv).calls.contains
      (.createProduct (buildProductData validInput)) = true := by
  decide

/-- C6 amended: whenever the create succeeds but QR rendering fails, the
handler reports the error state via the outer catch — no success, no product
view and no image are returned, even though the create call was already
made. -/
theorem qr_failure_aborts_registration (d : RegistrationInput)
    (env : RegistrationEnv) (p : Product) (hc : env.createResult = .ok p)
    (e : String) (hq : env.qrResult = .thrown e) :
    (onSubmit d env).registrationState = .error ∧
    (onSubmit d env).registeredProduct = none ∧
    (onSubmit d env).qrCodeUrl = none ∧
    (onSubmit d env).calls.contains (.createProduct (buildProductData d)) = true := by
  unfold onSubmit
  rw [hc, hq]
  refine ⟨rfl, rfl, rfl, ?_⟩
  simp [List.contains_cons]

/-- Concrete run of `qr_failure_aborts_registration` at `qrFailEnv`. -/
theorem qr_failure_aborts_registration_witness :
    (onSubmit validInput qrFailEnv).registrationState = .error ∧
    (onSubmit validInput qrFailEnv).registeredProduct = none ∧
    (onSubmit validInput qrFailEnv).qrCodeUrl = none ∧
    (onSubmit validInput qrFailEnv).calls.contains
      (.createProduct (buildProductData validInput)) = true :=
  qr_failure_aborts_registration validInput qrFailEnv freshProduct rfl
    "QR render failed" rfl

/-- Milliseconds per day, the divisor `1000 * 60 * 60 * 24` on the detail
page. -/
def msPerDay : Int := 86400000

/-- The Days in Transit statistic as rendered by ProductDetailPage:
`product.createdAt ? Math.floor((new Date() - new Date(product.createdAt)) /
(1000*60*60*24)) : 0`. Times are epoch milliseconds; `none` models an
absent/falsy createdAt. `Math.floor` of the real quotient is floor division. -/
def daysInTransit (createdAt : Option Int) (now : Int) : Int :=
  match createdAt with
  | none => 0
  | some t => Int.fdiv (now - t) msPerDay

/-- C8 counterexample: a product whose creation timestamp lies one day in the
future shows -1 days in transit — the statistic is not clamped at 0. -/
theorem daysInTransit_negative_counterexample :
    daysInTransit (some 86400000) 0 = -1 ∧ daysInTransit (some 86400000) 0 < 0 := by
  decide

/-- C8 amended: the statistic is the whole-day floor of the elapsed
milliseconds, 0 when the creation time is unavailable and 0 when creation is
"now", but it is negative — not clamped at 0 — whenever the creation
timestamp lies strictly in the future. -/
theorem daysInTransit_floor_unclamped (t now : Int) :
    daysInTransit none now = 0 ∧
    daysInTransit (some now) now = 0 ∧
    daysInTransit (some t) now = Int.fdiv (now - t) msPerDay ∧
    (now < t → daysInTransit (some t) now < 0) := by
  refine ⟨rfl, ?_, rfl, ?_⟩
  · show Int.fdiv (now - now) msPerDay = 0
    rw [sub_self]
    exact Int.zero_fdiv msPerDay
  · intro h
    show Int.fdiv (now - t) msPerDay < 0
    rw [Int.fdiv_eq_ediv _ (by decide)]
    exact Int.ediv_neg' (by omega) (by decide)

/-- Concrete run of `daysInTransit_floor_unclamped`: created at millisecond
86400001, rendered at millisecond 1 — the displayed value is negative. -/
theorem daysInTransit_floor_unclamped_witness :
    daysInTransit (some 86400001) 1 < 0 :=
  (daysInTransit_floor_unclamped 86400001 1).2.2.2 (by decide)

/-- A custody checkpoint as rendered by the timeline. -/
structure Checkpoint where
  id : String
  location : String
  timestamp : Int
  deriving Repr, DecidableEq

/-- The three render branches of the Journey Timeline section of
ProductDetailPage: error card on a failed query, empty card on a missing or
empty list, otherwise the received list mapped entry by entry. -/
inductive TimelineView where
  | errorView (message : String)
  | emptyView
  | entries (checkpoints : List Checkpoint)
  deriving Repr, DecidableEq

/-- Shallow embedding of the timeline render: the checkpoint sequence is
mapped in exactly the order received — no sort is applied anywhere on the
page. -/
def timelineView (fetched : CallResult (List Checkpoint)) : TimelineView :=
  match fetched with
  | .thrown _ => .errorView "Failed to load checkpoints"
  | .ok cps => if cps.isEmpty then .emptyView else .entries cps

/-- Timestamp-ascending test on a checkpoint sequence. -/
def ascendingByTimestamp : List Checkpoint → Bool
  | [] => true
  | [_] => true
  | a :: b :: rest =>
      decide (a.timestamp ≤ b.timestamp) && ascendingByTimestamp (b :: rest)

/-- The earlier of the two checkpoints of the C9 run. -/
def earlyCheckpoint : Checkpoint := ⟨"cp-1", "Hamburg", 1000⟩

/-- The later of the two checkpoints of the C9 run. -/
def lateCheckpoint : Checkpoint := ⟨"cp-2", "Rotterdam", 2000⟩

/-- C9 counterexample: received in the order T2, T1, the timeline presents
the checkpoint at T2 first — the displayed sequence is not ordered by
timestamp ascending. -/
theorem timeline_not_sorted_counterexample :
    timelineView (.ok [lateCheckpoint, earlyCheckpoint]) =
      .entries [lateCheckpoint, earlyCheckpoint] ∧
    earlyCheckpoint.timestamp < lateCheckpoint.timestamp ∧
    ascendingByTimestamp [lateCheckpoint, earlyCheckpoint] = false := by
  decide

/-- C9 amended: the timeline presents checkpoints in exactly the order in
which the sequence was received; no reordering takes place, so ascending
presentation holds only for sequences that already arrive sorted. -/
theorem timeline_preserves_received_order (cps : List Checkpoint)
    (h : cps ≠ []) :
    timelineView (.ok cps) = .entries cps := by
  cases cps with
  | nil => exact absurd rfl h
  | cons a rest => simp [timelineView]

/-- Concrete run of `timeline_preserves_received_order` on a two-element
sequence received out of timestamp order. -/
theorem timeline_preserves_received_order_witness :
    timelineView (.ok [earlyCheckpoint, lateCheckpoint]) =
      .entries [earlyCheckpoint, lateCheckpoint] :=
  timeline_preserves_received_order [earlyCheckpoint, lateCheckpoint] (by decide)

/-- Dispatch of the detail page's checkpoint queryFn: the page invokes
`checkpointsAPI.getByProductId(productId)`, looked up here against the
methods actually defined on `checkpointsAPI`; an undefined property makes the
queryFn throw a TypeError instead of issuing a request. `backend` is the
result a defined fetch method would have produced. -/
def fetchCheckpoints (backend : CallResult (List Checkpoint)) :
    CallResult (List Checkpoint) :=
  if checkpointsAPIMethods.contains "getByProductId" then backend
  else .thrown "TypeError: checkpointsAPI.getByProductId is not a function"

/-- C10: `getByProductId` is not among the methods defined on
`checkpointsAPI` (its defined fetch method is `getByProduct`), so the
checkpoint query rejects for every product and every backend state, the
timeline always takes its error branch, and no checkpoint is ever
rendered. -/
theorem getByProductId_always_fails (backend : CallResult (List Checkpoint)) :
    checkpointsAPIMethods.contains "getByProductId" = false ∧
    checkpointsAPIMethods.contains "getByProduct" = true ∧
    timelineView (fetchCheckpoints backend) =
      .errorView "Failed to load checkpoints" := by
  refine ⟨by decide, by decide, ?_⟩
  have hdisp : fetchCheckpoints backend =
      .thrown "TypeError: checkpointsAPI.getByProductId is not a function" := by
    unfold fetchCheckpoints
    rw [show checkpointsAPIMethods.contains "getByProductId" = false from by decide]
    rfl
  rw [hdisp]
  rfl

end Counterfeit
